import Mathlib

/-!
Shallow embedding of the Sentora central server (`src/server.py`) alert
engine: threshold evaluation (`check_thresholds`), alert persistence and
multi-channel notification (`send_alert` and the three `send_*_alert`
channel functions), the Redis-based duplicate suppression and liveness
sweep (`check_agent_status`), and alert acknowledgement
(`acknowledge_alert`).

Modelling conventions:
* Python floats carrying percentages are modelled as exact rationals
  (`Rat`); every comparison in the source is a plain `>` on such values.
* `datetime` instants are modelled as integer timestamps (seconds).
  The source compares ISO-8601 strings produced from datetimes, which
  agrees with chronological order for a fixed format.
* MongoDB collections are Lean lists; `insert_one` appends and assigns
  `nextId` as the new document id (the `_id` handed out by MongoDB),
  `find_one` is `List.find?`, and `update_one` rewrites the first match.
  `modified_count` of an `update_one` with `$set` counts documents whose
  stored value actually changed, per MongoDB semantics.
* The Redis client is an association list from keys to absolute expiry
  times; `SET key v EX n` at time `t` stores expiry `t + n`, and `GET`
  returns a live value exactly when the current time is before expiry.
* A channel send that can raise in Python is given its environment
  behaviour as an `Except` value (`.error` = exception raised by the
  network call, `.ok` = the call's result); each `send_*_alert` wrapper
  is a total function, mirroring its `try/except` that converts every
  exception into a `False` return.
-/

/-- The Pydantic `AlertConfig` model with its declared defaults
(`cpu_threshold=80`, `ram_threshold=85`, `disk_threshold=90`,
`service_alerts=True`, `ssh_brute_force_alerts=True`). -/
structure AlertConfig where
  cpu_threshold : Rat := 80
  ram_threshold : Rat := 85
  disk_threshold : Rat := 90
  service_alerts : Bool := true
  ssh_brute_force_alerts : Bool := true
  deriving DecidableEq, Repr

/-- `AlertConfig()` with no arguments — the hardcoded default policy. -/
def defaultAlertConfig : AlertConfig := {}

/-- The `ssh_brute_force` dict of a metrics report.  The source reads it
with `.get("threshold_exceeded", False)` and `.get("failed_attempts", 0)`,
so both keys may be absent; absence is an `Option.none`. -/
structure SSHData where
  threshold_exceeded : Option Bool := none
  failed_attempts : Option Nat := none
  deriving DecidableEq, Repr

/-- The Pydantic `MetricsData` model: every metric field is `Optional`. -/
structure MetricsData where
  cpu_usage : Option Rat := none
  ram_usage : Option Rat := none
  disk_usage : Option (List (String × Rat)) := none
  network : Option (List (String × List (String × Rat))) := none
  services : Option (List (String × String)) := none
  ssh_brute_force : Option SSHData := none
  timestamp : String
  agent_name : String
  hostname : String
  deriving DecidableEq, Repr

/-- A document of the `alerts` MongoDB collection, as inserted by
`send_alert` (id assigned by MongoDB on `insert_one`). -/
structure AlertRecord where
  id : Nat
  agent_name : String
  hostname : String
  alert_type : String
  message : String
  timestamp : Int
  acknowledged : Bool
  deriving DecidableEq, Repr

/-- A document of the `agents` MongoDB collection: upserted by
`receive_metrics` (which sets `name`, `hostname`, `last_seen`) and
by `update_agent_config` (which sets `alert_config`). -/
structure AgentDoc where
  name : String
  hostname : String
  last_seen : Int
  alert_config : Option AlertConfig := none
  deriving DecidableEq, Repr

/-- The MongoDB-backed server state: the `metrics`, `alerts` and `agents`
collections, plus the id counter standing for MongoDB's id generation. -/
structure ServerState where
  nextId : Nat := 0
  metrics : List MetricsData := []
  alerts : List AlertRecord := []
  agents : List AgentDoc := []
  deriving DecidableEq, Repr

def emptyState : ServerState := {}

/-- One of the three notification channels of `send_alert`. -/
inductive Channel
  | email
  | telegram
  | discord
  deriving DecidableEq, Repr

/-- The `ALERT_*_ENABLED` environment flags. -/
structure ChannelCfg where
  email : Bool
  telegram : Bool
  discord : Bool
  deriving DecidableEq, Repr

/-- Environment behaviour of the three channel backends for one alert:
`email` is the SMTP conversation (`.ok` delivered, `.error` raised),
`telegram` and `discord` are the HTTP POST (`.ok status`, `.error`
raised). -/
structure ChannelBeh where
  email : Except String Unit
  telegram : Except String Nat
  discord : Except String Nat
  deriving Repr

/-- `send_email_alert`: returns `False` when disabled, `True` when the
SMTP send completes, and `False` (never raising) when the `try` body
raises. -/
def sendEmailAlert (enabled : Bool) (beh : Except String Unit)
    (subject message : String) : Bool :=
  if !enabled then false
  else
    match beh with
    | Except.ok _ => true
    | Except.error _ => false

/-- `send_telegram_alert`: `False` when disabled; otherwise `True` iff
the POST returns status 200, `False` on any other status or exception. -/
def sendTelegramAlert (enabled : Bool) (beh : Except String Nat)
    (message : String) : Bool :=
  if !enabled then false
  else
    match beh with
    | Except.ok status => status == 200
    | Except.error _ => false

/-- `send_discord_alert`: `False` when disabled; otherwise `True` iff
the POST returns status 204, `False` otherwise or on exception. -/
def sendDiscordAlert (enabled : Bool) (beh : Except String Nat)
    (message : String) : Bool :=
  if !enabled then false
  else
    match beh with
    | Except.ok status => status == 204
    | Except.error _ => false

/-- The channel fan-out at the end of `send_alert`: each enabled channel
is attempted in turn and yields its boolean outcome. -/
def dispatchChannels (cfg : ChannelCfg) (beh : ChannelBeh)
    (subject message : String) : List (Channel × Bool) :=
  (if cfg.email then [(Channel.email, sendEmailAlert cfg.email beh.email subject message)] else [])
    ++ (if cfg.telegram then [(Channel.telegram, sendTelegramAlert cfg.telegram beh.telegram message)] else [])
    ++ (if cfg.discord then [(Channel.discord, sendDiscordAlert cfg.discord beh.discord message)] else [])

/-- Number of enabled channels. -/
def enabledCount (cfg : ChannelCfg) : Nat :=
  (if cfg.email then 1 else 0) + (if cfg.telegram then 1 else 0)
    + (if cfg.discord then 1 else 0)

/-- The outcome recorded for a given channel in a dispatch result. -/
def outcomeOf (outs : List (Channel × Bool)) (ch : Channel) : Option Bool :=
  (outs.find? (fun o => o.1 == ch)).map (fun o => o.2)

/-- `send_alert`: inserts the alert record into the `alerts` collection
first, then attempts every enabled channel, and returns the string form
of the inserted id. -/
def sendAlert (cfg : ChannelCfg) (beh : ChannelBeh) (st : ServerState)
    (alert_type agent_name hostname message : String) (now : Int) :
    String × ServerState × List (Channel × Bool) :=
  let rec0 : AlertRecord :=
    { id := st.nextId, agent_name := agent_name, hostname := hostname,
      alert_type := alert_type, message := message, timestamp := now,
      acknowledged := false }
  let st2 : ServerState :=
    { st with nextId := st.nextId + 1, alerts := st.alerts ++ [rec0] }
  let alert_message :=
    "ALERT: " ++ alert_type ++ "\nAgent: " ++ agent_name ++ " (" ++ hostname
      ++ ")\nTime: " ++ toString now ++ "\nMessage: " ++ message
  let subject := "Sentora Alert: " ++ alert_type ++ " on " ++ hostname
  (toString st.nextId, st2, dispatchChannels cfg beh subject alert_message)

/-- Policy resolution at the top of `check_thresholds`:
`agents_collection.find_one({"name": agent_name})`, using the stored
`alert_config` when the document has one and `AlertConfig()` otherwise. -/
def getAlertConfig (agents : List AgentDoc) (name : String) : AlertConfig :=
  match agents.find? (fun a => a.name == name) with
  | some a =>
    match a.alert_config with
    | some c => c
    | none => defaultAlertConfig
  | none => defaultAlertConfig

/-- An entry of the `alerts_sent` list returned by `check_thresholds`
(`type` and `id` always; `path` for disk alerts, `service` for service
alerts). -/
structure SentAlert where
  type : String
  id : String
  path : Option String := none
  service : Option String := none
  deriving DecidableEq, Repr

/-- The CPU branch of `check_thresholds`. -/
def cpuCheck (cfg : ChannelCfg) (beh : ChannelBeh) (ac : AlertConfig)
    (st : ServerState) (m : MetricsData) (now : Int) :
    List SentAlert × ServerState :=
  match m.cpu_usage with
  | some v =>
    if v > ac.cpu_threshold then
      let message := "CPU usage is " ++ toString v
        ++ "%, which exceeds the threshold of " ++ toString ac.cpu_threshold ++ "%"
      let r := sendAlert cfg beh st "CPU_HIGH" m.agent_name m.hostname message now
      ([{ type := "CPU_HIGH", id := r.1 }], r.2.1)
    else ([], st)
  | none => ([], st)

/-- The RAM branch of `check_thresholds`. -/
def ramCheck (cfg : ChannelCfg) (beh : ChannelBeh) (ac : AlertConfig)
    (st : ServerState) (m : MetricsData) (now : Int) :
    List SentAlert × ServerState :=
  match m.ram_usage with
  | some v =>
    if v > ac.ram_threshold then
      let message := "RAM usage is " ++ toString v
        ++ "%, which exceeds the threshold of " ++ toString ac.ram_threshold ++ "%"
      let r := sendAlert cfg beh st "RAM_HIGH" m.agent_name m.hostname message now
      ([{ type := "RAM_HIGH", id := r.1 }], r.2.1)
    else ([], st)
  | none => ([], st)

/-- The `for path, usage in metrics.disk_usage.items()` loop of
`check_thresholds`. -/
def diskLoop (cfg : ChannelCfg) (beh : ChannelBeh) (agent_name hostname : String)
    (th : Rat) (now : Int) :
    List (String × Rat) → List SentAlert → ServerState → List SentAlert × ServerState
  | [], acc, st => (acc, st)
  | (path, usage) :: rest, acc, st =>
    if usage > th then
      let message := "Disk usage for " ++ path ++ " is " ++ toString usage
        ++ "%, which exceeds the threshold of " ++ toString th ++ "%"
      let r := sendAlert cfg beh st "DISK_HIGH" agent_name hostname message now
      diskLoop cfg beh agent_name hostname th now rest
        (acc ++ [{ type := "DISK_HIGH", id := r.1, path := some path }]) r.2.1
    else diskLoop cfg beh agent_name hostname th now rest acc st

/-- The disk branch of `check_thresholds`. -/
def diskCheck (cfg : ChannelCfg) (beh : ChannelBeh) (ac : AlertConfig)
    (st : ServerState) (m : MetricsData) (now : Int) :
    List SentAlert × ServerState :=
  match m.disk_usage with
  | some entries =>
    diskLoop cfg beh m.agent_name m.hostname ac.disk_threshold now entries [] st
  | none => ([], st)

/-- The `for service, status in metrics.services.items()` loop of
`check_thresholds`. -/
def svcLoop (cfg : ChannelCfg) (beh : ChannelBeh) (agent_name hostname : String)
    (now : Int) :
    List (String × String) → List SentAlert → ServerState → List SentAlert × ServerState
  | [], acc, st => (acc, st)
  | (service, status) :: rest, acc, st =>
    if status != "active" then
      let message := "Service " ++ service ++ " is " ++ status
      let r := sendAlert cfg beh st "SERVICE_DOWN" agent_name hostname message now
      svcLoop cfg beh agent_name hostname now rest
        (acc ++ [{ type := "SERVICE_DOWN", id := r.1, service := some service }]) r.2.1
    else svcLoop cfg beh agent_name hostname now rest acc st

/-- The service-status branch of `check_thresholds` (gated by
`alert_config.service_alerts`). -/
def svcCheck (cfg : ChannelCfg) (beh : ChannelBeh) (ac : AlertConfig)
    (st : ServerState) (m : MetricsData) (now : Int) :
    List SentAlert × ServerState :=
  if ac.service_alerts then
    match m.services with
    | some entries => svcLoop cfg beh m.agent_name m.hostname now entries [] st
    | none => ([], st)
  else ([], st)

/-- The SSH-brute-force branch of `check_thresholds` (gated by
`alert_config.ssh_brute_force_alerts`; the dict keys are read with
`.get(key, default)`). -/
def sshCheck (cfg : ChannelCfg) (beh : ChannelBeh) (ac : AlertConfig)
    (st : ServerState) (m : MetricsData) (now : Int) :
    List SentAlert × ServerState :=
  if ac.ssh_brute_force_alerts then
    match m.ssh_brute_force with
    | some d =>
      if d.threshold_exceeded.getD false then
        let failed_attempts := d.failed_attempts.getD 0
        let message := "SSH brute force attack detected with "
          ++ toString failed_attempts ++ " failed login attempts"
        let r := sendAlert cfg beh st "SSH_BRUTE_FORCE" m.agent_name m.hostname message now
        ([{ type := "SSH_BRUTE_FORCE", id := r.1 }], r.2.1)
      else ([], st)
    | none => ([], st)
  else ([], st)

/-- `check_thresholds`: resolves the agent's alert configuration, then
runs the five independent threshold branches in source order, threading
the alert store and concatenating the `alerts_sent` entries. -/
def checkThresholds (cfg : ChannelCfg) (beh : ChannelBeh) (st : ServerState)
    (m : MetricsData) (now : Int) : List SentAlert × ServerState :=
  let ac := getAlertConfig st.agents m.agent_name
  let r1 := cpuCheck cfg beh ac st m now
  let r2 := ramCheck cfg beh ac r1.2 m now
  let r3 := diskCheck cfg beh ac r2.2 m now
  let r4 := svcCheck cfg beh ac r3.2 m now
  let r5 := sshCheck cfg beh ac r4.2 m now
  (r1.1 ++ r2.1 ++ r3.1 ++ r4.1 ++ r5.1, r5.2)

/-- The agent upsert of `receive_metrics`: `update_one` with `$set` on
`name`, `hostname`, `last_seen` and `upsert=True` (so a stored
`alert_config` is preserved). -/
def upsertAgent (agents : List AgentDoc) (name hostname : String) (now : Int) :
    List AgentDoc :=
  if agents.any (fun a => a.name == name) then
    agents.map (fun a =>
      if a.name == name then { a with hostname := hostname, last_seen := now }
      else a)
  else agents ++ [{ name := name, hostname := hostname, last_seen := now }]

/-- The `POST /data` handler `receive_metrics`: stores the snapshot,
upserts the agent's `last_seen`, then runs `check_thresholds` (the
background task, run to completion here). -/
def receiveMetrics (cfg : ChannelCfg) (beh : ChannelBeh) (st : ServerState)
    (m : MetricsData) (now : Int) : ServerState :=
  let st1 : ServerState := { st with metrics := st.metrics ++ [m] }
  let st2 : ServerState :=
    { st1 with agents := upsertAgent st1.agents m.agent_name m.hostname now }
  (checkThresholds cfg beh st2 m now).2

/-- Number of persisted alerts of a given kind. -/
def countKind (alerts : List AlertRecord) (k : String) : Nat :=
  (alerts.filter (fun a => a.alert_type == k)).length

/-- The Redis key space: each key maps to the absolute expiry time of its
current value (`SET ... EX n` at time `t` stores `t + n`). -/
def RedisState : Type := List (String × Int)

/-- `redis_client.get(key)` truthiness at time `now`: a value is returned
exactly when the key holds an entry that has not yet expired. -/
def redisGet (r : RedisState) (now : Int) (key : String) : Bool :=
  match r.find? (fun e => e.1 == key) with
  | some e => decide (now < e.2)
  | none => false

/-- The raw expiry stored for a key, if any. -/
def redisLookup (r : RedisState) (key : String) : Option Int :=
  (r.find? (fun e => e.1 == key)).map (fun e => e.2)

/-- `redis_client.set(key, "1", ex=3600)` at time `now` with a general
window: the key now expires at `now + window`. -/
def redisSetEx (r : RedisState) (key : String) (now window : Int) : RedisState :=
  (key, now + window) :: r.filter (fun e => e.1 != key)

/-- The per-key duplicate-suppression step of `check_agent_status`:
`if not redis_client.get(alert_key)` admit (send the alert) and
`redis_client.set(alert_key, "1", ex=3600)`; otherwise suppress and
leave the entry untouched.  Returns (admitted?, new Redis state). -/
def admitKey (r : RedisState) (now : Int) (key : String) : Bool × RedisState :=
  if redisGet r now key then (false, r)
  else (true, redisSetEx r key now 3600)

/-- The MongoDB query of `check_agent_status`: agents whose `last_seen`
is strictly before `now - 10 minutes` (600 seconds). -/
def sweepCandidates (now : Int) (agents : List AgentDoc) : List AgentDoc :=
  agents.filter (fun a => a.last_seen < now - 600)

/-- The `for agent in inactive_agents` loop of `check_agent_status`:
for each inactive agent, the Redis-gated `AGENT_INACTIVE` alert. -/
def agentStatusLoop (cfg : ChannelCfg) (beh : ChannelBeh) (now : Int) :
    List AgentDoc → ServerState → RedisState → ServerState × RedisState
  | [], st, r => (st, r)
  | a :: rest, st, r =>
    let key := "agent_inactive:" ++ a.name
    let ad := admitKey r now key
    if ad.1 then
      let message := "Agent has not reported in over 10 minutes"
      let s := sendAlert cfg beh st "AGENT_INACTIVE" a.name a.hostname message now
      agentStatusLoop cfg beh now rest s.2.1 ad.2
    else agentStatusLoop cfg beh now rest st ad.2

/-- The Celery task `check_agent_status`: sweep the agents collection for
inactive agents and alert once per agent per Redis-window. -/
def checkAgentStatus (cfg : ChannelCfg) (beh : ChannelBeh) (now : Int)
    (st : ServerState) (r : RedisState) : ServerState × RedisState :=
  agentStatusLoop cfg beh now (sweepCandidates now st.agents) st r

/-- `update_one({"_id": id}, {"$set": {"acknowledged": True}})` applied to
the first matching alert document. -/
def setAckFirst (alert_id : Nat) : List AlertRecord → List AlertRecord
  | [] => []
  | a :: rest =>
    if a.id == alert_id then { a with acknowledged := true } :: rest
    else a :: setAckFirst alert_id rest

/-- The `POST /alerts/{alert_id}/acknowledge` handler: runs the update
and raises HTTP 404 when `result.modified_count == 0`.  Per MongoDB
semantics `modified_count` is 0 both when no document matches and when
the matched document already has `acknowledged == True` (the `$set`
changes nothing).  (The route additionally passes the string id while
documents carry MongoDB ObjectIds; ids are modelled uniformly here.) -/
def acknowledgeAlert (st : ServerState) (alert_id : Nat) : Except Nat ServerState :=
  match st.alerts.find? (fun a => a.id == alert_id) with
  | some a =>
    if a.acknowledged then Except.error 404
    else Except.ok { st with alerts := setAckFirst alert_id st.alerts }
  | none => Except.error 404

/-- A disabled-channels configuration (the `ALERT_*_ENABLED` defaults are
all `false`). -/
def cfgNone : ChannelCfg := { email := false, telegram := false, discord := false }

/-- An all-succeeding channel environment. -/
def behOk : ChannelBeh :=
  { email := Except.ok (), telegram := Except.ok 200, discord := Except.ok 204 }

/-- The spec's end-to-end example snapshot: `cpu_pct = 92` against the
default `cpu_threshold = 80`, all other metrics absent. -/
def snapCpu92 : MetricsData :=
  { cpu_usage := some 92, timestamp := "2026-01-01T00:00:00", agent_name := "a1",
    hostname := "h1" }

/-- A server state whose `alerts` collection holds exactly one alert,
with id 0, already acknowledged. -/
def ackDemoState : ServerState :=
  { nextId := 1,
    alerts := [{ id := 0, agent_name := "a1", hostname := "h1",
                 alert_type := "CPU_HIGH", message := "m", timestamp := 0,
                 acknowledged := true }] }

/-- The persisted record of one CPU_HIGH firing of `snapCpu92` at time `t`
with record id `i`. -/
def cpuRec (i : Nat) (t : Int) : AlertRecord :=
  { id := i, agent_name := "a1", hostname := "h1", alert_type := "CPU_HIGH",
    message := "CPU usage is 92%, which exceeds the threshold of 80%",
    timestamp := t, acknowledged := false }

/-- Server state after one submission of `snapCpu92` at `t1`. -/
def stAfter1 (t1 : Int) : ServerState :=
  { nextId := 1, metrics := [snapCpu92], alerts := [cpuRec 0 t1],
    agents := [{ name := "a1", hostname := "h1", last_seen := t1 }] }

/-- Server state after two submissions of `snapCpu92` at `t1`, `t2`. -/
def stAfter2 (t1 t2 : Int) : ServerState :=
  { nextId := 2, metrics := [snapCpu92, snapCpu92],
    alerts := [cpuRec 0 t1, cpuRec 1 t2],
    agents := [{ name := "a1", hostname := "h1", last_seen := t2 }] }

/-- Server state after three submissions of `snapCpu92` at `t1`, `t2`, `t3`. -/
def stAfter3 (t1 t2 t3 : Int) : ServerState :=
  { nextId := 3, metrics := [snapCpu92, snapCpu92, snapCpu92],
    alerts := [cpuRec 0 t1, cpuRec 1 t2, cpuRec 2 t3],
    agents := [{ name := "a1", hostname := "h1", last_seen := t3 }] }

/-- A snapshot with every metric field absent. -/
def snapEmpty : MetricsData :=
  { timestamp := "2026-01-01T00:00:00", agent_name := "a1", hostname := "h1" }

/-- All three channels enabled. -/
def cfgAll : ChannelCfg := { email := true, telegram := true, discord := true }

/-- Email delivered, Telegram raising a timeout, Discord returning 204. -/
def behMix : ChannelBeh :=
  { email := Except.ok (), telegram := Except.error "timeout", discord := Except.ok 204 }

/-- An agent last seen 601 seconds before a sweep at time 1000. -/
def staleAgent : AgentDoc := { name := "a1", hostname := "h1", last_seen := 399 }

/-- An agent last seen 599 seconds before a sweep at time 1000. -/
def freshAgent : AgentDoc := { name := "a2", hostname := "h2", last_seen := 401 }

/-- An agent document with no stored `alert_config`. -/
def agentNoCfg : AgentDoc := { name := "a1", hostname := "h1", last_seen := 0 }

/-- An `ssh_brute_force` dict with both keys absent. -/
def sshNoFlag : SSHData := {}

/-- An `ssh_brute_force` dict with `threshold_exceeded` true and
`failed_attempts` absent. -/
def sshFlagOnly : SSHData := { threshold_exceeded := some true }

/-- Snapshot whose `ssh_brute_force` dict lacks `threshold_exceeded`. -/
def snapSshNoFlag : MetricsData :=
  { ssh_brute_force := some sshNoFlag, timestamp := "2026-01-01T00:00:00",
    agent_name := "a1", hostname := "h1" }

/-- Snapshot whose `ssh_brute_force` dict has the flag but no count. -/
def snapSshFlagOnly : MetricsData :=
  { ssh_brute_force := some sshFlagOnly, timestamp := "2026-01-01T00:00:00",
    agent_name := "a1", hostname := "h1" }

/-- Every entry emitted by the CPU branch has type `CPU_HIGH`. -/
lemma cpuCheck_types (cfg : ChannelCfg) (beh : ChannelBeh) (ac : AlertConfig)
    (st : ServerState) (m : MetricsData) (now : Int) :
    ∀ x ∈ (cpuCheck cfg beh ac st m now).1, x.type = "CPU_HIGH" := by
  intro x hx
  simp only [cpuCheck] at hx
  rcases hcu : m.cpu_usage with _ | v <;> rw [hcu] at hx
  · simp at hx
  · simp only [] at hx
    split at hx
    · simp at hx; subst hx; rfl
    · simp at hx

/-- The CPU branch emits nothing when `cpu_usage` is absent. -/
lemma cpuCheck_none (cfg : ChannelCfg) (beh : ChannelBeh) (ac : AlertConfig)
    (st : ServerState) (m : MetricsData) (now : Int) (h : m.cpu_usage = none) :
    (cpuCheck cfg beh ac st m now).1 = [] := by
  simp [cpuCheck, h]

/-- Every entry emitted by the RAM branch has type `RAM_HIGH`. -/
lemma ramCheck_types (cfg : ChannelCfg) (beh : ChannelBeh) (ac : AlertConfig)
    (st : ServerState) (m : MetricsData) (now : Int) :
    ∀ x ∈ (ramCheck cfg beh ac st m now).1, x.type = "RAM_HIGH" := by
  intro x hx
  simp only [ramCheck] at hx
  rcases hcu : m.ram_usage with _ | v <;> rw [hcu] at hx
  · simp at hx
  · simp only [] at hx
    split at hx
    · simp at hx; subst hx; rfl
    · simp at hx

/-- The RAM branch emits nothing when `ram_usage` is absent. -/
lemma ramCheck_none (cfg : ChannelCfg) (beh : ChannelBeh) (ac : AlertConfig)
    (st : ServerState) (m : MetricsData) (now : Int) (h : m.ram_usage = none) :
    (ramCheck cfg beh ac st m now).1 = [] := by
  simp [ramCheck, h]

/-- Every entry the disk loop adds beyond its accumulator has type
`DISK_HIGH`. -/
lemma diskLoop_types (cfg : ChannelCfg) (beh : ChannelBeh) (an hn : String)
    (th : Rat) (now : Int) :
    ∀ (entries : List (String × Rat)) (acc : List SentAlert) (st : ServerState),
      ∀ x ∈ (diskLoop cfg beh an hn th now entries acc st).1,
        x ∈ acc ∨ x.type = "DISK_HIGH" := by
  intro entries
  induction entries with
  | nil => intro acc st x hx; simp [diskLoop] at hx; exact Or.inl hx
  | cons p rest ih =>
    intro acc st x hx
    obtain ⟨path, usage⟩ := p
    rw [diskLoop] at hx
    split at hx
    · rcases ih _ _ x hx with hmem | ht
      · rcases List.mem_append.mp hmem with h1 | h2
        · exact Or.inl h1
        · simp at h2; subst h2; exact Or.inr rfl
      · exact Or.inr ht
    · exact ih _ _ x hx

/-- Every entry emitted by the disk branch has type `DISK_HIGH`. -/
lemma diskCheck_types (cfg : ChannelCfg) (beh : ChannelBeh) (ac : AlertConfig)
    (st : ServerState) (m : MetricsData) (now : Int) :
    ∀ x ∈ (diskCheck cfg beh ac st m now).1, x.type = "DISK_HIGH" := by
  intro x hx
  simp only [diskCheck] at hx
  rcases hdu : m.disk_usage with _ | entries <;> rw [hdu] at hx
  · simp at hx
  · simp only [] at hx
    rcases diskLoop_types cfg beh m.agent_name m.hostname ac.disk_threshold now
      entries [] st x hx with h1 | h2
    · simp at h1
    · exact h2

/-- The disk branch emits nothing when `disk_usage` is absent. -/
lemma diskCheck_none (cfg : ChannelCfg) (beh : ChannelBeh) (ac : AlertConfig)
    (st : ServerState) (m : MetricsData) (now : Int) (h : m.disk_usage = none) :
    (diskCheck cfg beh ac st m now).1 = [] := by
  simp [diskCheck, h]

/-- Every entry the service loop adds beyond its accumulator has type
`SERVICE_DOWN`. -/
lemma svcLoop_types (cfg : ChannelCfg) (beh : ChannelBeh) (an hn : String)
    (now : Int) :
    ∀ (entries : List (String × String)) (acc : List SentAlert) (st : ServerState),
      ∀ x ∈ (svcLoop cfg beh an hn now entries acc st).1,
        x ∈ acc ∨ x.type = "SERVICE_DOWN" := by
  intro entries
  induction entries with
  | nil => intro acc st x hx; simp [svcLoop] at hx; exact Or.inl hx
  | cons p rest ih =>
    intro acc st x hx
    obtain ⟨service, status⟩ := p
    rw [svcLoop] at hx
    split at hx
    · rcases ih _ _ x hx with hmem | ht
      · rcases List.mem_append.mp hmem with h1 | h2
        · exact Or.inl h1
        · simp at h2; subst h2; exact Or.inr rfl
      · exact Or.inr ht
    · exact ih _ _ x hx

/-- Every entry emitted by the service branch has type `SERVICE_DOWN`. -/
lemma svcCheck_types (cfg : ChannelCfg) (beh : ChannelBeh) (ac : AlertConfig)
    (st : ServerState) (m : MetricsData) (now : Int) :
    ∀ x ∈ (svcCheck cfg beh ac st m now).1, x.type = "SERVICE_DOWN" := by
  intro x hx
  simp only [svcCheck] at hx
  split at hx
  · rcases hsv : m.services with _ | entries <;> rw [hsv] at hx
    · simp at hx
    · simp only [] at hx
      rcases svcLoop_types cfg beh m.agent_name m.hostname now entries [] st x hx with h1 | h2
      · simp at h1
      · exact h2
  · simp at hx

/-- The service branch emits nothing when `services` is absent. -/
lemma svcCheck_none (cfg : ChannelCfg) (beh : ChannelBeh) (ac : AlertConfig)
    (st : ServerState) (m : MetricsData) (now : Int) (h : m.services = none) :
    (svcCheck cfg beh ac st m now).1 = [] := by
  unfold svcCheck
  split <;> simp [h]

/-- Every entry emitted by the SSH branch has type `SSH_BRUTE_FORCE`. -/
lemma sshCheck_types (cfg : ChannelCfg) (beh : ChannelBeh) (ac : AlertConfig)
    (st : ServerState) (m : MetricsData) (now : Int) :
    ∀ x ∈ (sshCheck cfg beh ac st m now).1, x.type = "SSH_BRUTE_FORCE" := by
  intro x hx
  simp only [sshCheck] at hx
  split at hx
  · rcases hsb : m.ssh_brute_force with _ | d <;> rw [hsb] at hx
    · simp at hx
    · simp only [] at hx
      split at hx
      · simp at hx; subst hx; rfl
      · simp at hx
  · simp at hx

/-- The SSH branch emits nothing when `ssh_brute_force` is absent. -/
lemma sshCheck_none (cfg : ChannelCfg) (beh : ChannelBeh) (ac : AlertConfig)
    (st : ServerState) (m : MetricsData) (now : Int) (h : m.ssh_brute_force = none) :
    (sshCheck cfg beh ac st m now).1 = [] := by
  unfold sshCheck
  split <;> simp [h]

/-- The SSH branch emits nothing when the dict lacks `threshold_exceeded`
(`.get("threshold_exceeded", False)` defaults to false). -/
lemma sshCheck_no_flag (cfg : ChannelCfg) (beh : ChannelBeh) (ac : AlertConfig)
    (st : ServerState) (m : MetricsData) (now : Int) (d : SSHData)
    (h : m.ssh_brute_force = some d) (h2 : d.threshold_exceeded = none) :
    (sshCheck cfg beh ac st m now).1 = [] := by
  unfold sshCheck
  split <;> simp [h, h2]

/-- Every `alerts_sent` entry of `check_thresholds` comes from one of the
five branches, run at some intermediate state, under the resolved
configuration. -/
lemma checkThresholds_mem (cfg : ChannelCfg) (beh : ChannelBeh)
    (st : ServerState) (m : MetricsData) (now : Int) (x : SentAlert)
    (hx : x ∈ (checkThresholds cfg beh st m now).1) :
    (∃ st2, x ∈ (cpuCheck cfg beh (getAlertConfig st.agents m.agent_name) st2 m now).1)
    ∨ (∃ st2, x ∈ (ramCheck cfg beh (getAlertConfig st.agents m.agent_name) st2 m now).1)
    ∨ (∃ st2, x ∈ (diskCheck cfg beh (getAlertConfig st.agents m.agent_name) st2 m now).1)
    ∨ (∃ st2, x ∈ (svcCheck cfg beh (getAlertConfig st.agents m.agent_name) st2 m now).1)
    ∨ (∃ st2, x ∈ (sshCheck cfg beh (getAlertConfig st.agents m.agent_name) st2 m now).1) := by
  simp only [checkThresholds, List.mem_append] at hx
  rcases hx with ((((h1 | h2) | h3) | h4) | h5)
  · exact Or.inl ⟨_, h1⟩
  · exact Or.inr (Or.inl ⟨_, h2⟩)
  · exact Or.inr (Or.inr (Or.inl ⟨_, h3⟩))
  · exact Or.inr (Or.inr (Or.inr (Or.inl ⟨_, h4⟩)))
  · exact Or.inr (Or.inr (Or.inr (Or.inr ⟨_, h5⟩)))

/-- The `(type, path)` projection of the disk loop is the threshold
filter of its input, in order, one entry per exceeding path. -/
lemma diskLoop_paths (cfg : ChannelCfg) (beh : ChannelBeh) (an hn : String)
    (th : Rat) (now : Int) :
    ∀ (entries : List (String × Rat)) (acc : List SentAlert) (st : ServerState),
      ((diskLoop cfg beh an hn th now entries acc st).1).map (fun a => (a.type, a.path))
        = acc.map (fun a => (a.type, a.path))
          ++ (entries.filter (fun p => decide (p.2 > th))).map
              (fun p => ("DISK_HIGH", some p.1)) := by
  intro entries
  induction entries with
  | nil => intro acc st; simp [diskLoop]
  | cons p rest ih =>
    intro acc st
    obtain ⟨path, usage⟩ := p
    rw [diskLoop]
    split
    · rename_i hgt
      rw [ih]
      simp [List.filter_cons, hgt]
    · rename_i hgt
      rw [ih]
      simp only [List.filter_cons]
      rw [if_neg (by simpa using hgt)]

/-- The `(type, path)` projection of the disk branch is the threshold
filter of the disk map. -/
lemma diskCheck_paths (cfg : ChannelCfg) (beh : ChannelBeh) (ac : AlertConfig)
    (st : ServerState) (m : MetricsData) (now : Int) :
    ((diskCheck cfg beh ac st m now).1).map (fun a => (a.type, a.path))
      = ((m.disk_usage.getD []).filter (fun p => decide (p.2 > ac.disk_threshold))).map
          (fun p => ("DISK_HIGH", some p.1)) := by
  rcases hdu : m.disk_usage with _ | entries
  · simp [diskCheck, hdu]
  · simp only [diskCheck, hdu, Option.getD_some]
    rw [diskLoop_paths]
    simp

/-- Filtering a list of entries that all carry type `t` by a different
type yields nothing. -/
lemma filter_type_nil (l : List SentAlert) (t k : String)
    (h : ∀ x ∈ l, x.type = t) (hne : t ≠ k) :
    l.filter (fun a => a.type == k) = [] := by
  rw [List.filter_eq_nil_iff]
  intro a ha
  rw [h a ha]
  simp [hne]

/-- Filtering a list of entries that all carry type `k` by `k` keeps
everything. -/
lemma filter_type_self (l : List SentAlert) (k : String)
    (h : ∀ x ∈ l, x.type = k) :
    l.filter (fun a => a.type == k) = l := by
  rw [List.filter_eq_self]
  intro a ha
  rw [h a ha]
  simp

/-- Submitting `snapCpu92` to the empty server at any time yields
`stAfter1`. -/
lemma submit1 (t1 : Int) :
    receiveMetrics cfgNone behOk emptyState snapCpu92 t1 = stAfter1 t1 := rfl

/-- A second submission of `snapCpu92` yields `stAfter2`. -/
lemma submit2 (t1 t2 : Int) :
    receiveMetrics cfgNone behOk (stAfter1 t1) snapCpu92 t2 = stAfter2 t1 t2 := rfl

/-- A third submission of `snapCpu92` yields `stAfter3`. -/
lemma submit3 (t1 t2 t3 : Int) :
    receiveMetrics cfgNone behOk (stAfter2 t1 t2) snapCpu92 t3 = stAfter3 t1 t2 t3 := rfl

/-- Claim C1, counterexample.  The claim states that submitting the
snapshot `{cpu: 92}` (threshold 80) twice within one suppression window
creates exactly one persisted CPU_HIGH AlertRecord.  In the code,
`check_thresholds` calls `send_alert` unconditionally on every
submission — there is no dedup gate on the metric path — so two
submissions at times 0 and 10 (well inside any suppression window)
persist two CPU_HIGH records, not one. -/
theorem c1_counterexample :
    countKind ((receiveMetrics cfgNone behOk
        (receiveMetrics cfgNone behOk emptyState snapCpu92 0) snapCpu92 10).alerts)
      "CPU_HIGH" = 2
    ∧ (2 : Nat) ≠ 1 := by
  rw [submit1, submit2]
  exact ⟨rfl, by decide⟩

/-- Claim C1, amended.  Every submission of a snapshot whose cpu exceeds
the threshold persists its own CPU_HIGH AlertRecord, regardless of
timing: two submissions give two records and three give three, at any
times whatsoever.  Threshold alerts are not deduplicated; only the
liveness sweep's AGENT_INACTIVE alerts pass through the Redis
suppression gate. -/
theorem c1_amended (t1 t2 t3 : Int) :
    countKind ((receiveMetrics cfgNone behOk
        (receiveMetrics cfgNone behOk emptyState snapCpu92 t1) snapCpu92 t2).alerts)
      "CPU_HIGH" = 2
    ∧ countKind ((receiveMetrics cfgNone behOk (receiveMetrics cfgNone behOk
        (receiveMetrics cfgNone behOk emptyState snapCpu92 t1) snapCpu92 t2)
          snapCpu92 t3).alerts) "CPU_HIGH" = 3 := by
  rw [submit1, submit2, submit3]
  exact ⟨rfl, rfl⟩

/-- Claim C2.  For every snapshot, channel configuration, server state
and time: if a metric field is absent (None), `check_thresholds` emits
no alert referencing that field — cpu absent gives no CPU_HIGH, ram
absent no RAM_HIGH, disk absent no DISK_HIGH, services absent no
SERVICE_DOWN, and ssh_brute_force absent no SSH_BRUTE_FORCE, for every
policy (the resolved configuration is arbitrary). -/
theorem c2_absent_fields (cfg : ChannelCfg) (beh : ChannelBeh)
    (st : ServerState) (m : MetricsData) (now : Int) :
    (m.cpu_usage = none →
      "CPU_HIGH" ∉ ((checkThresholds cfg beh st m now).1).map SentAlert.type)
    ∧ (m.ram_usage = none →
      "RAM_HIGH" ∉ ((checkThresholds cfg beh st m now).1).map SentAlert.type)
    ∧ (m.disk_usage = none →
      "DISK_HIGH" ∉ ((checkThresholds cfg beh st m now).1).map SentAlert.type)
    ∧ (m.services = none →
      "SERVICE_DOWN" ∉ ((checkThresholds cfg beh st m now).1).map SentAlert.type)
    ∧ (m.ssh_brute_force = none →
      "SSH_BRUTE_FORCE" ∉ ((checkThresholds cfg beh st m now).1).map SentAlert.type) := by
  refine ⟨?_, ?_, ?_, ?_, ?_⟩ <;> intro h hmem <;>
    rcases List.mem_map.mp hmem with ⟨x, hx, hxt⟩ <;>
    rcases checkThresholds_mem cfg beh st m now x hx with
      ⟨st2, hc⟩ | ⟨st2, hc⟩ | ⟨st2, hc⟩ | ⟨st2, hc⟩ | ⟨st2, hc⟩
  · rw [cpuCheck_none cfg beh _ st2 m now h] at hc; simp at hc
  · rw [ramCheck_types cfg beh _ st2 m now x hc] at hxt; exact absurd hxt (by decide)
  · rw [diskCheck_types cfg beh _ st2 m now x hc] at hxt; exact absurd hxt (by decide)
  · rw [svcCheck_types cfg beh _ st2 m now x hc] at hxt; exact absurd hxt (by decide)
  · rw [sshCheck_types cfg beh _ st2 m now x hc] at hxt; exact absurd hxt (by decide)
  · rw [cpuCheck_types cfg beh _ st2 m now x hc] at hxt; exact absurd hxt (by decide)
  · rw [ramCheck_none cfg beh _ st2 m now h] at hc; simp at hc
  · rw [diskCheck_types cfg beh _ st2 m now x hc] at hxt; exact absurd hxt (by decide)
  · rw [svcCheck_types cfg beh _ st2 m now x hc] at hxt; exact absurd hxt (by decide)
  · rw [sshCheck_types cfg beh _ st2 m now x hc] at hxt; exact absurd hxt (by decide)
  · rw [cpuCheck_types cfg beh _ st2 m now x hc] at hxt; exact absurd hxt (by decide)
  · rw [ramCheck_types cfg beh _ st2 m now x hc] at hxt; exact absurd hxt (by decide)
  · rw [diskCheck_none cfg beh _ st2 m now h] at hc; simp at hc
  · rw [svcCheck_types cfg beh _ st2 m now x hc] at hxt; exact absurd hxt (by decide)
  · rw [sshCheck_types cfg beh _ st2 m now x hc] at hxt; exact absurd hxt (by decide)
  · rw [cpuCheck_types cfg beh _ st2 m now x hc] at hxt; exact absurd hxt (by decide)
  · rw [ramCheck_types cfg beh _ st2 m now x hc] at hxt; exact absurd hxt (by decide)
  · rw [diskCheck_types cfg beh _ st2 m now x hc] at hxt; exact absurd hxt (by decide)
  · rw [svcCheck_none cfg beh _ st2 m now h] at hc; simp at hc
  · rw [sshCheck_types cfg beh _ st2 m now x hc] at hxt; exact absurd hxt (by decide)
  · rw [cpuCheck_types cfg beh _ st2 m now x hc] at hxt; exact absurd hxt (by decide)
  · rw [ramCheck_types cfg beh _ st2 m now x hc] at hxt; exact absurd hxt (by decide)
  · rw [diskCheck_types cfg beh _ st2 m now x hc] at hxt; exact absurd hxt (by decide)
  · rw [svcCheck_types cfg beh _ st2 m now x hc] at hxt; exact absurd hxt (by decide)
  · rw [sshCheck_none cfg beh _ st2 m now h] at hc; simp at hc

/-- Claim C2, witness: a snapshot with every field absent yields none of
the five alert kinds. -/
theorem c2_witness :
    snapEmpty.cpu_usage = none
    ∧ "CPU_HIGH" ∉ ((checkThresholds cfgNone behOk emptyState snapEmpty 0).1).map SentAlert.type
    ∧ "RAM_HIGH" ∉ ((checkThresholds cfgNone behOk emptyState snapEmpty 0).1).map SentAlert.type
    ∧ "DISK_HIGH" ∉ ((checkThresholds cfgNone behOk emptyState snapEmpty 0).1).map SentAlert.type
    ∧ "SERVICE_DOWN" ∉ ((checkThresholds cfgNone behOk emptyState snapEmpty 0).1).map SentAlert.type
    ∧ "SSH_BRUTE_FORCE" ∉ ((checkThresholds cfgNone behOk emptyState snapEmpty 0).1).map SentAlert.type := by
  refine ⟨rfl, ?_, ?_, ?_, ?_, ?_⟩
  · exact (c2_absent_fields cfgNone behOk emptyState snapEmpty 0).1 rfl
  · exact (c2_absent_fields cfgNone behOk emptyState snapEmpty 0).2.1 rfl
  · exact (c2_absent_fields cfgNone behOk emptyState snapEmpty 0).2.2.1 rfl
  · exact (c2_absent_fields cfgNone behOk emptyState snapEmpty 0).2.2.2.1 rfl
  · exact (c2_absent_fields cfgNone behOk emptyState snapEmpty 0).2.2.2.2 rfl

/-- Claim C3.  The disk branch emits exactly one DISK_HIGH candidate per
path whose usage strictly exceeds the policy's disk threshold, in map
order, and none for paths at or below it: the `(type, path)` projection
of its output equals the projection of the strictly-exceeding filter of
the disk map.  The second conjunct states the same for the DISK_HIGH
entries of the full `check_thresholds` output under the resolved
configuration. -/
theorem c3_disk_per_path (cfg : ChannelCfg) (beh : ChannelBeh) (ac : AlertConfig)
    (st : ServerState) (m : MetricsData) (now : Int) :
    ((diskCheck cfg beh ac st m now).1).map (fun a => (a.type, a.path))
      = ((m.disk_usage.getD []).filter (fun p => decide (p.2 > ac.disk_threshold))).map
          (fun p => ("DISK_HIGH", some p.1))
    ∧ (((checkThresholds cfg beh st m now).1).filter
          (fun a => a.type == "DISK_HIGH")).map (fun a => (a.type, a.path))
        = ((m.disk_usage.getD []).filter
            (fun p => decide (p.2 > (getAlertConfig st.agents m.agent_name).disk_threshold))).map
            (fun p => ("DISK_HIGH", some p.1)) := by
  constructor
  · exact diskCheck_paths cfg beh ac st m now
  · simp only [checkThresholds, List.filter_append]
    rw [filter_type_nil _ _ _ (cpuCheck_types cfg beh _ _ m now) (by decide),
      filter_type_nil _ _ _ (ramCheck_types cfg beh _ _ m now) (by decide),
      filter_type_nil _ _ _ (svcCheck_types cfg beh _ _ m now) (by decide),
      filter_type_nil _ _ _ (sshCheck_types cfg beh _ _ m now) (by decide),
      filter_type_self _ _ (diskCheck_types cfg beh _ _ m now)]
    simp only [List.nil_append, List.append_nil]
    exact diskCheck_paths cfg beh _ _ m now

/-- Claim C4.  The Redis-backed admit step of `check_agent_status` is a
check-and-set: with no live entry for the key it admits and stores an
entry expiring at `now + 3600` (the suppression window); with a live
entry it suppresses and leaves the Redis state — in particular the
existing expiry — untouched; and once the window has elapsed after an
admitting call, a repeat candidate with the same key is admitted again. -/
theorem c4_admit_check_and_set (r : RedisState) (now later : Int) (key : String) :
    (redisGet r now key = false →
      (admitKey r now key).1 = true
        ∧ redisLookup (admitKey r now key).2 key = some (now + 3600))
    ∧ (redisGet r now key = true →
      (admitKey r now key).1 = false ∧ (admitKey r now key).2 = r)
    ∧ (redisGet r now key = false → now + 3600 ≤ later →
      (admitKey (admitKey r now key).2 later key).1 = true) := by
  refine ⟨?_, ?_, ?_⟩
  · intro h
    constructor
    · simp [admitKey, h]
    · simp [admitKey, h, redisLookup, redisSetEx, List.find?]
  · intro h
    constructor <;> simp [admitKey, h]
  · intro h hle
    have h1 : admitKey r now key = (true, redisSetEx r key now 3600) := by
      simp [admitKey, h]
    rw [h1]
    have hlt : ¬ (later < now + 3600) := by omega
    simp [admitKey, redisGet, redisSetEx, List.find?, hlt]

/-- Claim C4, witness: on an empty Redis state the key is admitted with
expiry 3600; on a state holding a live entry the key is suppressed with
the state unchanged; at time 3600 the admitted key is admitted again. -/
theorem c4_witness :
    redisGet [] 0 "agent_inactive:a1" = false
    ∧ (admitKey [] 0 "agent_inactive:a1").1 = true
    ∧ redisLookup (admitKey [] 0 "agent_inactive:a1").2 "agent_inactive:a1" = some 3600
    ∧ redisGet [("agent_inactive:a1", 10)] 5 "agent_inactive:a1" = true
    ∧ (admitKey [("agent_inactive:a1", 10)] 5 "agent_inactive:a1").1 = false
    ∧ (admitKey [("agent_inactive:a1", 10)] 5 "agent_inactive:a1").2
        = [("agent_inactive:a1", 10)]
    ∧ (admitKey (admitKey [] 0 "agent_inactive:a1").2 3600 "agent_inactive:a1").1 = true := by
  refine ⟨rfl, ?_, ?_, rfl, ?_, ?_, ?_⟩
  · exact ((c4_admit_check_and_set [] 0 3600 "agent_inactive:a1").1 rfl).1
  · simpa using ((c4_admit_check_and_set [] 0 3600 "agent_inactive:a1").1 rfl).2
  · exact ((c4_admit_check_and_set [("agent_inactive:a1", 10)] 5 3600 "agent_inactive:a1").2.1 rfl).1
  · exact ((c4_admit_check_and_set [("agent_inactive:a1", 10)] 5 3600 "agent_inactive:a1").2.1 rfl).2
  · exact (c4_admit_check_and_set [] 0 3600 "agent_inactive:a1").2.2 rfl (by decide)

/-- Claim C5.  For every channel configuration and every behaviour of
the channel backends — including ones that raise — the dispatch step
returns one outcome per enabled channel (it never raises: each wrapper
is total), and each enabled channel's outcome is exactly its own send
function's result on its own behaviour, so one channel's failure never
prevents or alters the remaining channels' attempts. -/
theorem c5_dispatch_outcomes (cfg : ChannelCfg) (beh : ChannelBeh)
    (subject message : String) :
    (dispatchChannels cfg beh subject message).length = enabledCount cfg
    ∧ (cfg.email = true →
        outcomeOf (dispatchChannels cfg beh subject message) Channel.email
          = some (sendEmailAlert true beh.email subject message))
    ∧ (cfg.telegram = true →
        outcomeOf (dispatchChannels cfg beh subject message) Channel.telegram
          = some (sendTelegramAlert true beh.telegram message))
    ∧ (cfg.discord = true →
        outcomeOf (dispatchChannels cfg beh subject message) Channel.discord
          = some (sendDiscordAlert true beh.discord message)) := by
  rcases cfg with ⟨e, t, d⟩
  cases e <;> cases t <;> cases d <;>
    refine ⟨rfl, fun h => ?_, fun h => ?_, fun h => ?_⟩ <;>
    first
      | rfl
      | exact absurd h (by decide)

/-- Claim C5, witness: all three channels enabled, Telegram raising a
timeout — three outcomes, each channel reflecting its own result. -/
theorem c5_witness :
    (dispatchChannels cfgAll behMix "s" "m").length = enabledCount cfgAll
    ∧ outcomeOf (dispatchChannels cfgAll behMix "s" "m") Channel.email
        = some (sendEmailAlert true behMix.email "s" "m")
    ∧ outcomeOf (dispatchChannels cfgAll behMix "s" "m") Channel.telegram
        = some (sendTelegramAlert true behMix.telegram "m")
    ∧ outcomeOf (dispatchChannels cfgAll behMix "s" "m") Channel.discord
        = some (sendDiscordAlert true behMix.discord "m") := by
  refine ⟨?_, ?_, ?_, ?_⟩
  · exact (c5_dispatch_outcomes cfgAll behMix "s" "m").1
  · exact (c5_dispatch_outcomes cfgAll behMix "s" "m").2.1 rfl
  · exact (c5_dispatch_outcomes cfgAll behMix "s" "m").2.2.1 rfl
  · exact (c5_dispatch_outcomes cfgAll behMix "s" "m").2.2.2 rfl

/-- Claim C6.  `send_alert` persists the AlertRecord (acknowledged
false) by appending it to the alerts collection, and both the resulting
collection and the returned alert id are identical for any two channel
behaviours — so channel failures neither roll the record back nor
change the returned id, and the persisted state is fixed before any
send is attempted. -/
theorem c6_record_persisted_first (cfg : ChannelCfg) (beh beh2 : ChannelBeh)
    (st : ServerState) (alert_type agent_name hostname message : String) (now : Int) :
    ((sendAlert cfg beh st alert_type agent_name hostname message now).2.1).alerts
      = st.alerts ++
        [{ id := st.nextId, agent_name := agent_name, hostname := hostname,
           alert_type := alert_type, message := message, timestamp := now,
           acknowledged := false }]
    ∧ (sendAlert cfg beh st alert_type agent_name hostname message now).1
        = (sendAlert cfg beh2 st alert_type agent_name hostname message now).1
    ∧ (sendAlert cfg beh st alert_type agent_name hostname message now).2.1
        = (sendAlert cfg beh2 st alert_type agent_name hostname message now).2.1 :=
  ⟨rfl, rfl, rfl⟩

/-- Claim C7.  For an agent present exactly once in the agents
collection, the liveness sweep at time `now` lists it exactly once when
`now - last_seen > 600` seconds (the 10-minute threshold) and not at
all when `now - last_seen ≤ 600`. -/
theorem c7_liveness_sweep (now : Int) (a : AgentDoc) (agents : List AgentDoc)
    (hone : agents.count a = 1) :
    (now - a.last_seen > 600 → (sweepCandidates now agents).count a = 1)
    ∧ (now - a.last_seen ≤ 600 → (sweepCandidates now agents).count a = 0) := by
  constructor
  · intro h
    rw [sweepCandidates, List.count_filter, hone]
    simp only [decide_eq_true_eq]
    omega
  · intro h
    rw [List.count_eq_zero]
    intro hmem
    rw [sweepCandidates, List.mem_filter] at hmem
    have := hmem.2
    simp only [decide_eq_true_eq] at this
    omega

/-- Claim C7, witness: at sweep time 1000, an agent last seen at 399
(601 seconds ago) is listed once; an agent last seen at 401 (599
seconds ago) is not listed. -/
theorem c7_witness :
    ([staleAgent] : List AgentDoc).count staleAgent = 1
    ∧ (1000 : Int) - staleAgent.last_seen > 600
    ∧ (sweepCandidates 1000 [staleAgent]).count staleAgent = 1
    ∧ ([freshAgent] : List AgentDoc).count freshAgent = 1
    ∧ (1000 : Int) - freshAgent.last_seen ≤ 600
    ∧ (sweepCandidates 1000 [freshAgent]).count freshAgent = 0 := by
  refine ⟨rfl, by decide, ?_, rfl, by decide, ?_⟩
  · exact (c7_liveness_sweep 1000 staleAgent [staleAgent] rfl).1 (by decide)
  · exact (c7_liveness_sweep 1000 freshAgent [freshAgent] rfl).2 (by decide)

/-- Claim C8, code bug.  The claim (and the spec's
`AcknowledgeAlert(id)` contract) says acknowledge fails with not-found
exactly when no alert with the id exists and succeeds whenever one
exists, acknowledged or not.  The handler instead raises HTTP 404 when
`update_one(...).modified_count == 0`, and MongoDB reports 0 modified
documents when the matched alert is already acknowledged (the `$set`
changes nothing) — so acknowledging an existing, already-acknowledged
alert returns "Alert not found".  (The sibling endpoint
`update_agent_config` checks `matched_count` for its 404, showing the
intended test.)  This theorem evaluates the handler at the failing
input: the store contains the alert with id 0, yet the call returns
404. -/
theorem c8_ack_already_acknowledged_404 :
    (ackDemoState.alerts.any (fun a => a.id == 0)) = true
    ∧ acknowledgeAlert ackDemoState 0 = Except.error 404 :=
  ⟨rfl, rfl⟩

/-- Claim C9.  Policy resolution in `check_thresholds` is a total
function that never aborts the evaluation: when the agents collection
has no document for the agent, or a document without a stored
`alert_config`, it resolves to the hardcoded default configuration. -/
theorem c9_policy_defaults (agents : List AgentDoc) (name : String) :
    (agents.find? (fun a => a.name == name) = none →
      getAlertConfig agents name = defaultAlertConfig)
    ∧ (∀ a, agents.find? (fun a2 => a2.name == name) = some a →
        a.alert_config = none → getAlertConfig agents name = defaultAlertConfig) := by
  constructor
  · intro h; simp [getAlertConfig, h]
  · intro a h h2; simp [getAlertConfig, h, h2]

/-- Claim C9, witness: resolution on an empty agents collection and on
a collection whose matching document has no stored config both yield
the defaults. -/
theorem c9_witness :
    ([] : List AgentDoc).find? (fun a => a.name == "a1") = none
    ∧ getAlertConfig [] "a1" = defaultAlertConfig
    ∧ [agentNoCfg].find? (fun a2 => a2.name == "a1") = some agentNoCfg
    ∧ agentNoCfg.alert_config = none
    ∧ getAlertConfig [agentNoCfg] "a1" = defaultAlertConfig := by
  refine ⟨rfl, ?_, rfl, rfl, ?_⟩
  · exact (c9_policy_defaults [] "a1").1 rfl
  · exact (c9_policy_defaults [agentNoCfg] "a1").2 agentNoCfg rfl rfl

/-- Claim C10.  When the `ssh_brute_force` dict is present but lacks
`threshold_exceeded`, no SSH_BRUTE_FORCE alert is emitted by
`check_thresholds` (the missing key defaults to false), for every
policy; and when `threshold_exceeded` is true but `failed_attempts` is
missing and SSH alerts are enabled, exactly one alert is emitted whose
persisted message reports 0 failed attempts. -/
theorem c10_ssh_missing_keys (cfg : ChannelCfg) (beh : ChannelBeh) (ac : AlertConfig)
    (st : ServerState) (m : MetricsData) (now : Int) (d : SSHData) :
    (m.ssh_brute_force = some d → d.threshold_exceeded = none →
      "SSH_BRUTE_FORCE" ∉ ((checkThresholds cfg beh st m now).1).map SentAlert.type)
    ∧ (m.ssh_brute_force = some d → d.threshold_exceeded = some true →
       d.failed_attempts = none → ac.ssh_brute_force_alerts = true →
      ((sshCheck cfg beh ac st m now).1).map SentAlert.type = ["SSH_BRUTE_FORCE"]
      ∧ ((sshCheck cfg beh ac st m now).2).alerts
          = st.alerts ++
            [{ id := st.nextId, agent_name := m.agent_name, hostname := m.hostname,
               alert_type := "SSH_BRUTE_FORCE",
               message := "SSH brute force attack detected with 0 failed login attempts",
               timestamp := now, acknowledged := false }]) := by
  constructor
  · intro h h2 hmem
    rcases List.mem_map.mp hmem with ⟨x, hx, hxt⟩
    rcases checkThresholds_mem cfg beh st m now x hx with
      ⟨st2, hc⟩ | ⟨st2, hc⟩ | ⟨st2, hc⟩ | ⟨st2, hc⟩ | ⟨st2, hc⟩
    · rw [cpuCheck_types cfg beh _ st2 m now x hc] at hxt; exact absurd hxt (by decide)
    · rw [ramCheck_types cfg beh _ st2 m now x hc] at hxt; exact absurd hxt (by decide)
    · rw [diskCheck_types cfg beh _ st2 m now x hc] at hxt; exact absurd hxt (by decide)
    · rw [svcCheck_types cfg beh _ st2 m now x hc] at hxt; exact absurd hxt (by decide)
    · rw [sshCheck_no_flag cfg beh _ st2 m now d h h2] at hc; simp at hc
  · intro h h2 h3 h4
    constructor
    · simp [sshCheck, h, h2, h3, h4, sendAlert]
    · simp [sshCheck, h, h2, h3, h4, sendAlert]
      rfl

/-- Claim C10, witness: a dict with no `threshold_exceeded` key yields
no SSH alert; a dict with only the flag yields one alert whose message
reports 0 failed attempts. -/
theorem c10_witness :
    snapSshNoFlag.ssh_brute_force = some sshNoFlag
    ∧ sshNoFlag.threshold_exceeded = none
    ∧ "SSH_BRUTE_FORCE" ∉ ((checkThresholds cfgNone behOk emptyState snapSshNoFlag 0).1).map SentAlert.type
    ∧ snapSshFlagOnly.ssh_brute_force = some sshFlagOnly
    ∧ sshFlagOnly.threshold_exceeded = some true
    ∧ sshFlagOnly.failed_attempts = none
    ∧ defaultAlertConfig.ssh_brute_force_alerts = true
    ∧ ((sshCheck cfgNone behOk defaultAlertConfig emptyState snapSshFlagOnly 0).1).map SentAlert.type
        = ["SSH_BRUTE_FORCE"]
    ∧ ((sshCheck cfgNone behOk defaultAlertConfig emptyState snapSshFlagOnly 0).2).alerts
        = emptyState.alerts ++
          [{ id := emptyState.nextId, agent_name := snapSshFlagOnly.agent_name,
             hostname := snapSshFlagOnly.hostname,
             alert_type := "SSH_BRUTE_FORCE",
             message := "SSH brute force attack detected with 0 failed login attempts",
             timestamp := 0, acknowledged := false }] := by
  refine ⟨rfl, rfl, ?_, rfl, rfl, rfl, rfl, ?_, ?_⟩
  · exact (c10_ssh_missing_keys cfgNone behOk defaultAlertConfig emptyState snapSshNoFlag 0 sshNoFlag).1 rfl rfl
  · exact ((c10_ssh_missing_keys cfgNone behOk defaultAlertConfig emptyState snapSshFlagOnly 0 sshFlagOnly).2 rfl rfl rfl rfl).1
  · exact ((c10_ssh_missing_keys cfgNone behOk defaultAlertConfig emptyState snapSshFlagOnly 0 sshFlagOnly).2 rfl rfl rfl rfl).2
